import Mathlib

/-!
Verification of the libimagequant attributes controller and dynamic row
source against its natural-language specification.

The Lean definitions below are a shallow embedding of the Rust sources
`src/attr.rs`, `src/rows.rs` and `src/lib.rs`:

* Rust machine integers (`u8`, `u16`, `u32`, `i32`, `usize`) are modelled as
  `Nat`/`Int`.  All arithmetic performed by the embedded functions stays far
  below the corresponding wrap-around bounds for every state reachable
  through the public API (the largest intermediate value is
  `max_histogram_entries ≤ 2^17 + 9·2^18 < 2^32`), so no explicit `% 2^w`
  is needed for those code paths.
* Rust `f64` values are modelled as `ℚ`; every `f64` literal appearing in
  the embedded code (`0.33`, `1.`, `2.`) is mapped to its exact decimal
  value.  The only nontrivial float operation embedded is
  `1. / ((1 << (23 - speed)) as f64)`, which is exact in `f64` (a power of
  two), so the rational model agrees with the float code on it.
* Fallible operations return the pair `(new state, liq_error)` or
  `Except liq_error result`, mirroring the Rust return values.
* The progress/log callback fields of `Attributes` are omitted from the
  state: they hold opaque function objects, none of the embedded functions
  reads or writes them, and no claim mentions them.
-/

/-- Error codes of the library, from `src/error.rs` (declared in the spec's
§6 table of stable numeric values; `error.rs` itself is re-exported by
`src/lib.rs`). -/
inductive liq_error where
  | LIQ_OK
  | LIQ_QUALITY_TOO_LOW
  | LIQ_VALUE_OUT_OF_RANGE
  | LIQ_OUT_OF_MEMORY
  | LIQ_ABORTED
  | LIQ_BITMAP_NOT_AVAILABLE
  | LIQ_BUFFER_TOO_SMALL
  | LIQ_INVALID_POINTER
  | LIQ_UNSUPPORTED
  deriving DecidableEq, Repr

export liq_error (LIQ_OK LIQ_VALUE_OUT_OF_RANGE LIQ_UNSUPPORTED)

/-- Dither-map mode, from `src/remap.rs` (used by `attr.rs`): disabled,
enabled for high-contrast regions, or always applied. -/
inductive DitherMapMode where
  | None
  | Enabled
  | Always
  deriving DecidableEq, Repr

/-- The user-tunable configuration, from `src/attr.rs` lines 13–36.
The three callback fields and the `magic_header` FFI tag are omitted
(see the header comment); all other fields are kept with their Rust
names and modelled domains. -/
structure Attributes where
  max_colors : Nat
  target_mse : ℚ
  max_mse : Option ℚ
  kmeans_iteration_limit : ℚ
  kmeans_iterations : Nat
  feedback_loop_trials : Nat
  max_histogram_entries : Nat
  min_posterization_output : Nat
  min_posterization_input : Nat
  last_index_transparent : Bool
  use_contrast_maps : Bool
  use_dither_map : DitherMapMode
  speed : Nat
  progress_stage1 : Nat
  progress_stage2 : Nat
  progress_stage3 : Nat
  deriving DecidableEq, Repr

/-- Modelled from the spec: `quality_to_mse` lives in `src/quant.rs`, which
is not among the provided sources.  §4.4 of the spec defines it as
`((100-q)/100)² × C` for a fixed constant `C`.  The constant is taken as 1
here; no claim settled below depends on its value, only on whether
`max_mse` is `some`. -/
def quality_to_mse (quality : Nat) : ℚ :=
  (((100 : ℚ) - (quality : ℚ)) / 100) ^ 2

/-- `Attributes::set_speed`, `src/attr.rs` lines 128–152.  Returns the
updated state and the error code.  The Rust sequence of field assignments
is rendered as a chain of `let`s feeding one record update; `value` is an
`i32`.  `progress_stage2 = 100 - progress_stage1 - progress_stage3` is `u8`
arithmetic in Rust; for every accepted speed the subtrahends sum to at most
56, so plain `Nat` subtraction agrees with it. -/
def Attributes.set_speed (a : Attributes) (value : Int) : Attributes × liq_error :=
  if value < 1 ∨ 10 < value then (a, LIQ_VALUE_OUT_OF_RANGE)
  else
    -- let mut iterations = (8 - value).max(0) as u16; iterations += iterations * iterations / 2;
    let iterations0 : Nat := (max (8 - value) 0).toNat
    let iterations : Nat := iterations0 + iterations0 * iterations0 / 2
    -- 1. / ((1 << (23 - value)) as f64)
    let kmeans_iteration_limit : ℚ := 1 / (((1 <<< (23 - value).toNat : Nat)) : ℚ)
    let feedback_loop_trials : Nat := (max (56 - 9 * value) 0).toNat
    let max_histogram_entries : Nat := ((1 <<< 17) + (1 <<< 18) * (10 - value).toNat : Nat)
    let min_posterization_input : Nat := if 8 ≤ value then 1 else 0
    let dither0 : DitherMapMode := if value ≤ 6 then DitherMapMode.Enabled else DitherMapMode.None
    let use_dither_map : DitherMapMode :=
      if dither0 ≠ DitherMapMode.None ∧ value < 3 then DitherMapMode.Always else dither0
    let use_contrast_maps : Bool := decide (value ≤ 7) || decide (use_dither_map ≠ DitherMapMode.None)
    let stage1a : Nat := if use_contrast_maps then 20 else 8
    let progress_stage1 : Nat := if feedback_loop_trials < 2 then stage1a + 30 else stage1a
    let progress_stage3 : Nat := (50 / (1 + value)).toNat
    let progress_stage2 : Nat := 100 - progress_stage1 - progress_stage3
    ({ a with
        kmeans_iterations := iterations,
        kmeans_iteration_limit := kmeans_iteration_limit,
        feedback_loop_trials := feedback_loop_trials,
        max_histogram_entries := max_histogram_entries,
        min_posterization_input := min_posterization_input,
        use_dither_map := use_dither_map,
        use_contrast_maps := use_contrast_maps,
        speed := value.toNat,
        progress_stage1 := progress_stage1,
        progress_stage2 := progress_stage2,
        progress_stage3 := progress_stage3 }, LIQ_OK)

/-- `Attributes::new`, `src/attr.rs` lines 44–69: all numeric fields start
at zero (`max_colors` at 256), then `set_speed(4)` is applied. -/
def Attributes.new : Attributes :=
  (({ max_colors := 256
    , target_mse := 0
    , max_mse := none
    , kmeans_iteration_limit := 0
    , kmeans_iterations := 0
    , feedback_loop_trials := 0
    , max_histogram_entries := 0
    , min_posterization_output := 0
    , min_posterization_input := 0
    , last_index_transparent := false
    , use_contrast_maps := false
    , use_dither_map := DitherMapMode.None
    , speed := 0
    , progress_stage1 := 0
    , progress_stage2 := 0
    , progress_stage3 := 0 } : Attributes).set_speed 4).1

/-- `Attributes::set_max_colors`, `src/attr.rs` lines 73–79 (`colors` is a
`u32`). -/
def Attributes.set_max_colors (a : Attributes) (colors : Nat) : Attributes × liq_error :=
  if ¬ (2 ≤ colors ∧ colors ≤ 256) then (a, LIQ_VALUE_OUT_OF_RANGE)
  else ({ a with max_colors := colors }, LIQ_OK)

/-- `Attributes::set_min_posterization`, `src/attr.rs` lines 85–91
(`value` is a `u8`, so the Rust range check `(0..=4).contains` is just
`value ≤ 4`). -/
def Attributes.set_min_posterization (a : Attributes) (value : Nat) : Attributes × liq_error :=
  if ¬ (value ≤ 4) then (a, LIQ_VALUE_OUT_OF_RANGE)
  else ({ a with min_posterization_output := value }, LIQ_OK)

/-- `Attributes::set_quality`, `src/attr.rs` lines 105–112 (`minimum` and
`target` are `u8`, so `(0..=100).contains(&target)` is `target ≤ 100`). -/
def Attributes.set_quality (a : Attributes) (minimum target : Nat) : Attributes × liq_error :=
  if ¬ (target ≤ 100) ∨ target < minimum then (a, LIQ_VALUE_OUT_OF_RANGE)
  else ({ a with target_mse := quality_to_mse target
               , max_mse := some (quality_to_mse minimum) }, LIQ_OK)

/-- `Attributes::feedback_loop_trials`, `src/attr.rs` lines 259–274.
(Top level rather than in the `Attributes` namespace because the structure
already has a field of this name, exactly as the Rust struct does.) -/
def feedback_loop_trials (a : Attributes) (hist_items : Nat) : Nat :=
  let t0 := a.feedback_loop_trials
  let t1 := if 5000 < hist_items then (t0 * 3 + 3) / 4 else t0
  let t2 := if 25000 < hist_items then (t1 * 3 + 3) / 4 else t1
  let t3 := if 50000 < hist_items then (t2 * 3 + 3) / 4 else t2
  if 100000 < hist_items then (t3 * 3 + 3) / 4 else t3

/-- `Attributes::target_mse`, `src/attr.rs` lines 277–285: returns
`(max_mse, target_mse, aim_for_perfect_quality)`.  (Top level for the same
field-name reason as `feedback_loop_trials`.) -/
def target_mse (a : Attributes) (hist_items_len : Nat) : Option ℚ × ℚ × Bool :=
  let max_mse := a.max_mse.map (fun mse => mse * if hist_items_len ≤ 256 then (33 / 100 : ℚ) else 1)
  let aim_for_perfect_quality := decide (a.target_mse = 0)
  let t0 := max a.target_mse ((((1 <<< a.min_posterization_output : Nat) : ℚ) / 1024) ^ 2)
  let t1 := match max_mse with
    | some m => min t0 m
    | none => t0
  (max_mse, t1, aim_for_perfect_quality)

/-- `Attributes::kmeans_iterations`, `src/attr.rs` lines 288–308: returns
`(iterations, iteration_limit)`.  In the Rust source the doubling of
`iteration_limit` sits inside the same `hist_items_len > 100000` branch as
the fourth reduction of `iterations`; it is split into its own `if` below
with identical semantics.  (Top level for the field-name reason above.) -/
def kmeans_iterations (a : Attributes) (hist_items_len : Nat) (palette_error_is_known : Bool) :
    Nat × ℚ :=
  let i0 := a.kmeans_iterations
  let i1 := if 5000 < hist_items_len then (i0 * 3 + 3) / 4 else i0
  let i2 := if 25000 < hist_items_len then (i1 * 3 + 3) / 4 else i1
  let i3 := if 50000 < hist_items_len then (i2 * 3 + 3) / 4 else i2
  let i4 := if 100000 < hist_items_len then (i3 * 3 + 3) / 4 else i3
  let iteration_limit :=
    if 100000 < hist_items_len then a.kmeans_iteration_limit * 2 else a.kmeans_iteration_limit
  let i5 := if i4 = 0 ∧ palette_error_is_known = false ∧ a.max_mse.isSome then 1 else i4
  (i5, iteration_limit)

/-- `Attributes::posterize_bits`, `src/attr.rs` lines 310–313. -/
def Attributes.posterize_bits (a : Attributes) : Nat :=
  max a.min_posterization_output a.min_posterization_input

/-! ### The dynamic row source, `src/rows.rs` -/

/-- `LIQ_HIGH_MEMORY_LIMIT`, `src/lib.rs` line 35: `1 << 26` bytes (64 MiB). -/
def LIQ_HIGH_MEMORY_LIMIT : Nat := 1 <<< 26

/-- An 8-bit RGBA pixel (`rgb::RGBA8`), channels in 0..=255. -/
structure RGBA where
  r : Nat
  g : Nat
  b : Nat
  a : Nat
  deriving DecidableEq, Repr

/-- A perceptual pixel: four `f32` components (`src/pal.rs`, re-exported to
`rows.rs`), modelled as rationals. -/
structure f_pixel where
  a : ℚ
  r : ℚ
  g : ℚ
  b : ℚ
  deriving DecidableEq, Repr

/-- `std::mem::size_of::<f_pixel>()`: four 4-byte floats, 16 bytes. -/
def size_of_f_pixel : Nat := 16

/-- Modelled from the spec: `gamma_lut` lives in `src/pal.rs`, which is not
among the provided sources.  §3 of the spec describes it as a pure 256-entry
table from 8-bit sRGB to linear float, parameterized by the gamma exponent.
Its transcendental entry values are not expressible in `ℚ` and no claim
settled below depends on them, so a linear stand-in is used; only purity
(same gamma ⇒ same table) matters to the embedded control flow. -/
def gamma_lut (gamma : ℚ) : Nat → ℚ :=
  fun i => gamma * ((i : ℚ) / 255)

/-- Modelled from the spec (§4.1): `f_pixel::from_rgba` (in `src/pal.rs`,
not among the provided sources) maps each byte through the gamma LUT and
premultiplies R, G, B by A/255. -/
def f_pixel.from_rgba (lut : Nat → ℚ) (px : RGBA) : f_pixel :=
  { a := (px.a : ℚ) / 255
  , r := lut px.r * ((px.a : ℚ) / 255)
  , g := lut px.g * ((px.a : ℚ) / 255)
  , b := lut px.b * ((px.a : ℚ) / 255) }

/-- `PixelsSource`, `src/rows.rs` lines 9–12.  `Pixels` carries the list of
pixel rows (in Rust, row pointers into the bitmap plus an optional owned
pixel buffer); `Callback` carries the row-filling function (the Rust
callback writes `width` pixels of row `y` into a scratch buffer; here it
returns them). -/
inductive PixelsSource where
  | Pixels (rows : List (List RGBA)) (pixels : Option (List RGBA))
  | Callback (cb : Nat → List RGBA)

/-- `DynamicRows`, `src/rows.rs` lines 14–20: dimensions, the optional
cached float image, the pixel source and the gamma. -/
structure DynamicRows where
  width : Nat
  height : Nat
  f_pixels : Option (List f_pixel)
  pixels : PixelsSource
  gamma : ℚ

/-- `DynamicRows::row_rgba`, `src/rows.rs` lines 65–76: row `row` of the
source (for `Pixels`, the slice of `width` pixels behind the row pointer;
for `Callback`, whatever the callback produces into the scratch row). -/
def DynamicRows.row_rgba (d : DynamicRows) (row : Nat) : List RGBA :=
  match d.pixels with
  | PixelsSource.Pixels rows _ => rows.getD row []
  | PixelsSource.Callback cb => cb row

/-- `DynamicRows::convert_row_to_f`, `src/rows.rs` lines 78–86: convert one
RGBA row to perceptual pixels through the gamma LUT. -/
def convert_row_to_f (row_pixels : List RGBA) (lut : Nat → ℚ) : List f_pixel :=
  row_pixels.map (f_pixel.from_rgba lut)

/-- `DynamicRows::should_use_low_memory`, `src/rows.rs` lines 88–90. -/
def DynamicRows.should_use_low_memory (d : DynamicRows) : Bool :=
  decide (LIQ_HIGH_MEMORY_LIMIT / size_of_f_pixel < d.width * d.height)

/-- `DynamicRows::prepare_generated_image`, `src/rows.rs` lines 102–120.
Returns the updated state and, for the streamed case, the fresh one-row
temporary `f_pixel` buffer.  The Rust buffer is uninitialized
(`Box<[MaybeUninit<f_pixel>]>` of length `width`), so it is modelled by its
length alone. -/
def DynamicRows.prepare_generated_image (d : DynamicRows) (allow_steamed : Bool) :
    Except liq_error (DynamicRows × Option Nat) :=
  if allow_steamed && d.should_use_low_memory then
    Except.ok (d, some d.width)
  else
    let lut := gamma_lut d.gamma
    let f_pixels := ((List.range d.height).map fun row => convert_row_to_f (d.row_rgba row) lut).flatten
    Except.ok ({ d with f_pixels := some f_pixels }, none)

/-- `DynamicRows::prepare_f_pixels`, `src/rows.rs` lines 93–100. -/
def DynamicRows.prepare_f_pixels (d : DynamicRows) (allow_steamed : Bool) :
    Except liq_error (DynamicRows × Option Nat) :=
  if d.f_pixels.isSome then Except.ok (d, none)
  else d.prepare_generated_image allow_steamed

/-- `DynamicRows::rows_iter`, `src/rows.rs` lines 123–128: builds a
`DynamicRowsIter`, i.e. the (possibly updated) row source together with the
optional one-row temporary float buffer used for streamed conversion. -/
def DynamicRows.rows_iter (d : DynamicRows) : Except liq_error (DynamicRows × Option Nat) :=
  d.prepare_f_pixels true

/-- `DynamicRows::rgba_rows_iter`, `src/rows.rs` lines 131–139: an iterator
over the raw RGBA rows (no temporary float row), refused when the buffer
rows were already released. -/
def DynamicRows.rgba_rows_iter (d : DynamicRows) : Except liq_error Unit :=
  match d.pixels with
  | PixelsSource.Pixels rows _ =>
      if rows.isEmpty then Except.error LIQ_UNSUPPORTED else Except.ok ()
  | PixelsSource.Callback _ => Except.ok ()

/-- Modelled from the spec: the `liq_ownership` bitflags live in
`src/seacow.rs`, which is not among the provided sources.  The design notes
(§9) name the two ownership flags; `LIQ_OWN_ROWS = 4` follows from the
`ownership_bitflags` test in `src/lib.rs` (`LIQ_OWN_ROWS | LIQ_COPY_PIXELS`
has bits 4+16), and `LIQ_OWN_PIXELS = 8` is the remaining documented bit of
the C ABI. -/
def LIQ_OWN_ROWS : Nat := 4

/-- See `LIQ_OWN_ROWS`. -/
def LIQ_OWN_PIXELS : Nat := 8

/-- `DynamicRows::set_memory_ownership`, `src/rows.rs` lines 151–178.
`SeaCow::make_owned` only transfers deallocation responsibility and leaves
the data unchanged, so it is the identity on the modelled state.  In the
`LIQ_OWN_PIXELS` branch with no pixel buffer, the Rust code takes the row
with the lowest address as the start of one contiguous bitmap of
`width*height` pixels; on the modelled data that bitmap is the
concatenation of the rows. -/
def DynamicRows.set_memory_ownership (d : DynamicRows) (ownership_flags : Nat) :
    Except liq_error DynamicRows :=
  let both := LIQ_OWN_ROWS ||| LIQ_OWN_PIXELS
  if ownership_flags = 0 ∨ (ownership_flags ||| both) ≠ both then
    Except.error LIQ_VALUE_OUT_OF_RANGE
  else
    let step1 : Except liq_error DynamicRows :=
      if ownership_flags &&& LIQ_OWN_ROWS ≠ 0 then
        match d.pixels with
        | PixelsSource.Pixels _ _ => Except.ok d
        | PixelsSource.Callback _ => Except.error LIQ_VALUE_OUT_OF_RANGE
      else Except.ok d
    match step1 with
    | Except.error e => Except.error e
    | Except.ok d =>
      if ownership_flags &&& LIQ_OWN_PIXELS ≠ 0 then
        match d.pixels with
        | PixelsSource.Pixels _ (some _) => Except.ok d
        | PixelsSource.Pixels rows none =>
            if rows.isEmpty then Except.error LIQ_UNSUPPORTED
            else Except.ok { d with pixels := PixelsSource.Pixels rows (some rows.flatten) }
        | PixelsSource.Callback _ => Except.error LIQ_VALUE_OUT_OF_RANGE
      else Except.ok d

/-- `DynamicRows::free_histogram_inputs`, `src/rows.rs` lines 180–184. -/
def DynamicRows.free_histogram_inputs (d : DynamicRows) : DynamicRows :=
  if d.f_pixels.isSome then { d with pixels := PixelsSource.Pixels [] none } else d

/-! ### Spec-side reduction schedule (for claim C2)

These three definitions transcribe the words of claim C2 — "applying
`n ↦ (3·n + 3)/4` once for each of the thresholds ... that `h` exceeds" —
to be compared against the threshold cascades coded in
`feedback_loop_trials` and `kmeans_iterations`. -/

/-- The histogram-size thresholds of claim C2 that `h` exceeds. -/
def thresholdsExceeded (h : Nat) : List Nat :=
  [5000, 25000, 50000, 100000].filter (fun t => t < h)

/-- One reduction step of claim C2: `n ↦ (3·n + 3)/4`. -/
def reduceOnce (n : Nat) : Nat := (3 * n + 3) / 4

/-- Base value reduced once per exceeded threshold, per claim C2's words. -/
def reducedByThresholds (h n : Nat) : Nat :=
  (thresholdsExceeded h).foldl (fun m _ => reduceOnce m) n

/-! ### Concrete states used by counterexamples and witnesses -/

/-- Speed 9 (so the speed-derived k-means iteration count is 0) with a
minimum quality configured (so `max_mse` is present). -/
def attrSpeed9MinQuality : Attributes :=
  ((Attributes.new.set_speed 9).1.set_quality 0 100).1

/-- An attributes state with a configured maximum-MSE threshold of 2. -/
def attrWithMaxMse : Attributes :=
  { Attributes.new with max_mse := some 2 }

/-- A row source larger than the 64 MiB float-image high-water mark:
4194305 pixels, one more than `LIQ_HIGH_MEMORY_LIMIT / size_of_f_pixel`. -/
def dBig : DynamicRows :=
  { width := 4194305, height := 1, f_pixels := none
  , pixels := PixelsSource.Pixels [] none, gamma := 1 }

/-- A callback-backed row source. -/
def dCb : DynamicRows :=
  { width := 1, height := 1, f_pixels := none
  , pixels := PixelsSource.Callback (fun _ => []), gamma := 1 }

/-- A buffer-backed row source whose float conversion cache exists. -/
def dCached : DynamicRows :=
  { width := 1, height := 1
  , f_pixels := some [f_pixel.from_rgba (gamma_lut 1) { r := 0, g := 0, b := 0, a := 0 }]
  , pixels := PixelsSource.Pixels [[{ r := 0, g := 0, b := 0, a := 0 }]] none, gamma := 1 }

/-! ### Claims -/

/-- Claim C1, counterexample: the claim says the feedback-loop trials bound
stored by `Attributes::new()` (default speed 4) is at most 6; in the code it
is `56 − 9·4 = 20`. -/
theorem default_trials_not_le_six : ¬ Attributes.new.feedback_loop_trials ≤ 6 := by
  decide

/-- Claim C1 (amended): for a default-constructed `Attributes`
(`Attributes::new()`, which applies the default speed), the feedback-loop
trials bound stored in the `Attributes` is at most 20. -/
theorem default_trials_le_twenty : Attributes.new.feedback_loop_trials ≤ 20 := by
  decide

/-- Claim C2, counterexample: at speed 9 with a minimum quality set, the
histogram length 1 exceeds no threshold, so the claim's formula yields the
base count 0 — but `Attributes::kmeans_iterations` returns 1 (the code bumps
a zero count to one when no palette error is known and `max_mse` is set),
so the claimed characterisation fails. -/
theorem kmeans_iterations_bump_breaks_threshold_formula :
    (kmeans_iterations attrSpeed9MinQuality 1 false).1
      ≠ reducedByThresholds 1 attrSpeed9MinQuality.kmeans_iterations := by
  decide

/-- Claim C2 (amended): for every `Attributes` and histogram length `h`,
`Attributes::feedback_loop_trials(h)` and the iteration count of
`Attributes::kmeans_iterations(h, _)` are obtained from the speed-derived
base values by applying `n ↦ (3·n + 3)/4` once for each of the thresholds
`h > 5000`, `h > 25000`, `h > 50000`, `h > 100000` that `h` exceeds —
except that a reduced k-means count of 0 is returned as 1 when the palette
error is not known and a maximum MSE is configured; additionally, when
`h > 100000` the k-means iteration limit returned is the base limit
doubled. -/
theorem trials_and_iterations_reduced_per_threshold (a : Attributes) (h : Nat) (pk : Bool) :
    feedback_loop_trials a h = reducedByThresholds h a.feedback_loop_trials ∧
    (kmeans_iterations a h pk).1 =
      (let it := reducedByThresholds h a.kmeans_iterations
       if it = 0 ∧ pk = false ∧ a.max_mse.isSome then 1 else it) ∧
    (kmeans_iterations a h pk).2 =
      (if 100000 < h then a.kmeans_iteration_limit * 2 else a.kmeans_iteration_limit) := by
  by_cases h1 : 5000 < h <;> by_cases h2 : 25000 < h <;> by_cases h3 : 50000 < h <;>
    by_cases h4 : 100000 < h <;>
    first
      | (exfalso; omega)
      | (refine ⟨?_, ?_, ?_⟩ <;>
          simp [feedback_loop_trials, kmeans_iterations, reducedByThresholds,
                thresholdsExceeded, reduceOnce, List.filter, h1, h2, h3, h4, Nat.mul_comm])

/-- Claim C3: for every speed `s` in `1..=10`, `Attributes::set_speed(s)`
succeeds and sets the k-means iteration cap to `n + n²/2` with
`n = max(8 − s, 0)`, the k-means iteration limit to `1 / 2^(23 − s)`, and
`max_histogram_entries` to `2^17 + (10 − s)·2^18`. -/
theorem set_speed_derived_values (a : Attributes) (s : Int) (h1 : 1 ≤ s) (h2 : s ≤ 10) :
    (a.set_speed s).2 = LIQ_OK ∧
    ((a.set_speed s).1).kmeans_iterations
      = (max (8 - s) 0).toNat + (max (8 - s) 0).toNat * (max (8 - s) 0).toNat / 2 ∧
    ((a.set_speed s).1).kmeans_iteration_limit = 1 / (2 : ℚ) ^ (23 - s).toNat ∧
    ((a.set_speed s).1).max_histogram_entries = 2 ^ 17 + (10 - s).toNat * 2 ^ 18 := by
  interval_cases s <;>
    exact ⟨rfl, rfl,
      by norm_num [Attributes.set_speed, Nat.shiftLeft_eq, Int.toNat_ofNat],
      by norm_num [Attributes.set_speed, Nat.shiftLeft_eq, Int.toNat_ofNat, Nat.mul_comm]⟩

/-- Witness for claim C3 at speed 1 on the default state. -/
theorem set_speed_derived_values_witness :
    (Attributes.new.set_speed 1).2 = LIQ_OK ∧
    ((Attributes.new.set_speed 1).1).kmeans_iterations
      = (max ((8 : Int) - 1) 0).toNat
        + (max ((8 : Int) - 1) 0).toNat * (max ((8 : Int) - 1) 0).toNat / 2 ∧
    ((Attributes.new.set_speed 1).1).kmeans_iteration_limit = 1 / (2 : ℚ) ^ ((23 : Int) - 1).toNat ∧
    ((Attributes.new.set_speed 1).1).max_histogram_entries
      = 2 ^ 17 + ((10 : Int) - 1).toNat * 2 ^ 18 :=
  set_speed_derived_values Attributes.new 1 (by norm_num) (by norm_num)

/-- Claim C4: when the pixel count `width × height` exceeds 64 MiB divided
by the size of an `f_pixel` and the float cache is not yet built,
`DynamicRows::rows_iter` does not materialize the full float image: the
prepare step returns a one-row temporary buffer (length `width`) and leaves
the stored `f_pixels` cache unset (the state comes back unchanged). -/
theorem rows_iter_streams_when_over_memory_limit (d : DynamicRows) (hn : d.f_pixels = none)
    (hbig : LIQ_HIGH_MEMORY_LIMIT / size_of_f_pixel < d.width * d.height) :
    d.rows_iter = Except.ok (d, some d.width) := by
  simp [DynamicRows.rows_iter, DynamicRows.prepare_f_pixels, hn,
        DynamicRows.prepare_generated_image, DynamicRows.should_use_low_memory, hbig]

/-- Witness for claim C4 on a 4194305 × 1 row source. -/
theorem rows_iter_streams_when_over_memory_limit_witness :
    dBig.rows_iter = Except.ok (dBig, some dBig.width) :=
  rows_iter_streams_when_over_memory_limit dBig rfl (by decide)

/-- Claim C5: every setter rejects out-of-range input with
`ValueOutOfRange` and returns the `Attributes` completely unchanged:
`set_max_colors` outside `2..=256`, `set_speed` outside `1..=10`,
`set_min_posterization` above 4, and `set_quality` whenever
`target > 100` or `target < minimum`. -/
theorem setters_reject_out_of_range_unchanged (a : Attributes) :
    (∀ colors : Nat, ¬ (2 ≤ colors ∧ colors ≤ 256) →
        a.set_max_colors colors = (a, LIQ_VALUE_OUT_OF_RANGE)) ∧
    (∀ v : Int, ¬ (1 ≤ v ∧ v ≤ 10) → a.set_speed v = (a, LIQ_VALUE_OUT_OF_RANGE)) ∧
    (∀ p : Nat, 4 < p → a.set_min_posterization p = (a, LIQ_VALUE_OUT_OF_RANGE)) ∧
    (∀ mn tg : Nat, 100 < tg ∨ tg < mn → a.set_quality mn tg = (a, LIQ_VALUE_OUT_OF_RANGE)) := by
  refine ⟨fun c hc => ?_, fun v hv => ?_, fun p hp => ?_, fun mn tg htg => ?_⟩
  · rw [Attributes.set_max_colors, if_pos hc]
  · rw [Attributes.set_speed, if_pos (by omega)]
  · rw [Attributes.set_min_posterization, if_pos (by omega)]
  · rw [Attributes.set_quality, if_pos (by omega)]

/-- Witness for claim C5: each rejection on the default state at a concrete
out-of-range input. -/
theorem setters_reject_out_of_range_unchanged_witness :
    Attributes.new.set_max_colors 1 = (Attributes.new, LIQ_VALUE_OUT_OF_RANGE) ∧
    Attributes.new.set_speed 0 = (Attributes.new, LIQ_VALUE_OUT_OF_RANGE) ∧
    Attributes.new.set_min_posterization 5 = (Attributes.new, LIQ_VALUE_OUT_OF_RANGE) ∧
    Attributes.new.set_quality 50 40 = (Attributes.new, LIQ_VALUE_OUT_OF_RANGE) :=
  ⟨(setters_reject_out_of_range_unchanged Attributes.new).1 1 (by decide),
   (setters_reject_out_of_range_unchanged Attributes.new).2.1 0 (by decide),
   (setters_reject_out_of_range_unchanged Attributes.new).2.2.1 5 (by decide),
   (setters_reject_out_of_range_unchanged Attributes.new).2.2.2 50 40 (by decide)⟩

/-- Claim C6: when a minimum quality has been set (`max_mse` present), the
effective maximum-MSE threshold returned by `Attributes::target_mse(h)` is
the configured `max_mse` times 0.33 for `h ≤ 256` and the configured
`max_mse` unchanged for `h > 256`. -/
theorem target_mse_tightened_for_small_histograms (a : Attributes) (m : ℚ)
    (hm : a.max_mse = some m) (hl : Nat) :
    (target_mse a hl).1 = some (if hl ≤ 256 then m * (33 / 100) else m) := by
  simp [target_mse, hm]

/-- Witness for claim C6 with `max_mse = 2` at histogram length 100. -/
theorem target_mse_tightened_for_small_histograms_witness :
    (target_mse attrWithMaxMse 100).1
      = some (if (100 : Nat) ≤ 256 then (2 : ℚ) * (33 / 100) else 2) :=
  target_mse_tightened_for_small_histograms attrWithMaxMse 2 rfl 100

/-- Claim C7, counterexample: claiming ownership of a callback-backed image
does fail, but with `ValueOutOfRange`, not with the `Unsupported` error the
claim names — for both `LIQ_OWN_ROWS` and `LIQ_OWN_PIXELS`. -/
theorem own_callback_error_is_not_unsupported :
    DynamicRows.set_memory_ownership dCb LIQ_OWN_ROWS ≠ Except.error LIQ_UNSUPPORTED ∧
    DynamicRows.set_memory_ownership dCb LIQ_OWN_PIXELS ≠ Except.error LIQ_UNSUPPORTED := by
  constructor
  · intro hcontra
    rw [show DynamicRows.set_memory_ownership dCb LIQ_OWN_ROWS
          = Except.error LIQ_VALUE_OUT_OF_RANGE from rfl] at hcontra
    exact liq_error.noConfusion (Except.error.inj hcontra)
  · intro hcontra
    rw [show DynamicRows.set_memory_ownership dCb LIQ_OWN_PIXELS
          = Except.error LIQ_VALUE_OUT_OF_RANGE from rfl] at hcontra
    exact liq_error.noConfusion (Except.error.inj hcontra)

/-- Claim C7 (amended): attempting to claim ownership (via
`set_memory_ownership` with `LIQ_OWN_ROWS` or `LIQ_OWN_PIXELS`) of an image
whose pixel source is a row callback fails with the `ValueOutOfRange`
error. -/
theorem own_callback_fails_value_out_of_range (d : DynamicRows) (cb : Nat → List RGBA)
    (hp : d.pixels = PixelsSource.Callback cb)
    (flags : Nat) (hfl : flags = LIQ_OWN_ROWS ∨ flags = LIQ_OWN_PIXELS) :
    d.set_memory_ownership flags = Except.error LIQ_VALUE_OUT_OF_RANGE := by
  rcases hfl with rfl | rfl <;>
    simp [DynamicRows.set_memory_ownership, hp, LIQ_OWN_ROWS, LIQ_OWN_PIXELS,
          show (8 : Nat) &&& 4 = 0 from rfl]

/-- Witness for the amended claim C7 on a concrete callback-backed source
with `LIQ_OWN_ROWS`. -/
theorem own_callback_fails_value_out_of_range_witness :
    dCb.set_memory_ownership LIQ_OWN_ROWS = Except.error LIQ_VALUE_OUT_OF_RANGE :=
  own_callback_fails_value_out_of_range dCb (fun _ => []) rfl LIQ_OWN_ROWS (Or.inl rfl)

/-- Claim C8: once `free_histogram_inputs` has released a buffer-backed
image's pixel rows (which it does when the float conversion cache exists),
any subsequent `rgba_rows_iter` call returns the `Unsupported` error. -/
theorem rgba_rows_iter_after_free_unsupported (d : DynamicRows)
    (rows : List (List RGBA)) (px : Option (List RGBA))
    (_hp : d.pixels = PixelsSource.Pixels rows px) (hf : d.f_pixels.isSome = true) :
    (d.free_histogram_inputs).rgba_rows_iter = Except.error LIQ_UNSUPPORTED := by
  simp [DynamicRows.free_histogram_inputs, hf, DynamicRows.rgba_rows_iter]

/-- Witness for claim C8 on a concrete 1×1 buffer-backed source with a
built float cache. -/
theorem rgba_rows_iter_after_free_unsupported_witness :
    (dCached.free_histogram_inputs).rgba_rows_iter = Except.error LIQ_UNSUPPORTED :=
  rgba_rows_iter_after_free_unsupported dCached
    [[{ r := 0, g := 0, b := 0, a := 0 }]] none rfl rfl

/-- Claim C9: for every speed `s ≥ 8` (within `1..=10`), after
`set_speed(s)` the attributes report `posterize_bits() ≥ 1`, whatever the
caller's `min_posterization` setting is (in particular when it is 0): the
speed forces a hidden one-bit input posterization. -/
theorem high_speed_forces_input_posterization (a : Attributes) (s : Int)
    (h8 : 8 ≤ s) (h10 : s ≤ 10) :
    1 ≤ ((a.set_speed s).1).posterize_bits := by
  interval_cases s <;> simp [Attributes.set_speed, Attributes.posterize_bits]

/-- Witness for claim C9 at speed 8 on the default state (whose
`min_posterization_output` is 0). -/
theorem high_speed_forces_input_posterization_witness :
    1 ≤ ((Attributes.new.set_speed 8).1).posterize_bits :=
  high_speed_forces_input_posterization Attributes.new 8 (by norm_num) (by norm_num)

/-- Claim C10: for every speed `s` in `1..=10`, after `set_speed(s)` the
three per-stage progress weights partition the percentage scale exactly:
`progress_stage1 + progress_stage2 + progress_stage3 = 100`. -/
theorem progress_stages_sum_to_hundred (a : Attributes) (s : Int)
    (h1 : 1 ≤ s) (h2 : s ≤ 10) :
    ((a.set_speed s).1).progress_stage1 + ((a.set_speed s).1).progress_stage2 +
      ((a.set_speed s).1).progress_stage3 = 100 := by
  interval_cases s <;> rfl

/-- Witness for claim C10 at the default speed 4. -/
theorem progress_stages_sum_to_hundred_witness :
    ((Attributes.new.set_speed 4).1).progress_stage1 +
      ((Attributes.new.set_speed 4).1).progress_stage2 +
      ((Attributes.new.set_speed 4).1).progress_stage3 = 100 :=
  progress_stages_sum_to_hundred Attributes.new 4 (by norm_num) (by norm_num)
